import Mathlib

/-!
Shallow embedding of `pytest_profiling.py` (the pytest-profiling plugin).

The plugin is a thin adapter over external libraries (cProfile, pstats, md5,
os, pipes).  The adapter's own logic — filename sanitization, the
too-long-filename fallback, directory-creation error handling, the merge loop
at session finish, and the terminal summary — is embedded directly from the
source.  External effects are passed in as explicit oracles:
`dump : String → Except PyExc Unit` models `prof.dump_stats` on a given path,
`load : String → Stats` models `pstats.Stats(path)` loading a stats file,
`md5hex : String → String` models `md5(name).hexdigest()`, and
`mkres : Except PyExc Unit` models the outcome of `os.makedirs("prof")`.
-/

namespace PytestProfiling

/-- `errno.ENAMETOOLONG` (Linux value 36). -/
def ENAMETOOLONG : Nat := 36

/-- `errno.EACCES` (permission denied, Linux value 13). -/
def EACCES : Nat := 13

/-- `errno.EEXIST` (file exists, Linux value 17). -/
def EEXIST : Nat := 17

/-- `LARGE_FILENAME_HASH_LEN = 8` from the source. -/
def LARGE_FILENAME_HASH_LEN : Nat := 8

/-- A Python exception as far as the plugin can observe it: an
`EnvironmentError`/`OSError` carrying an errno, or any other exception
(tagged so that distinct non-environment exceptions exist). -/
inductive PyExc where
  | envError (errno : Nat)
  | otherExc (tag : Nat)
deriving DecidableEq, Repr

/-- `os.path.join` on two relative POSIX components, as used by the source
(`os.path.join("prof", name)`). -/
def path_join (a b : String) : String := a ++ "/" ++ b

/-- The forbidden path characters of `clean_filename`:
`set('/?<>\:*|"')` — in Python the `\:` is a literal backslash followed by a
colon, so the set holds the nine characters `/ ? < > \ : * | "`. -/
def forbidden_chars : List Char := ['/', '?', '<', '>', '\\', ':', '*', '|', '"']

/-- `clean_filename` from the source: keep a character only when it is not
forbidden and `ord(c) < 127`; otherwise replace it by `_`. -/
def clean_filename (s : String) : String :=
  String.mk (s.data.map (fun c =>
    if c ∉ forbidden_chars ∧ c.toNat < 127 then c else '_'))

/-- Model of a pstats statistics table at the granularity the claims need:
an association list from function identifier to recorded cumulative time,
where a function's total cumulative time is the sum of the entries under its
key.  The `.prof` file format itself is opaque to the plugin. -/
abbrev Stats := List (String × Nat)

/-- Cumulative time of function `f` in a stats table. -/
def cumtime (st : Stats) (f : String) : Nat :=
  ((st.filter (fun p => p.1 == f)).map Prod.snd).sum

/-- Model of `pstats.Stats.add`: accumulating a second table adds, per
function, its recorded times — at the `cumtime` granularity this is the bag
union of the two association lists. -/
def statsAdd (a b : Stats) : Stats := a ++ b

/-- The state of the `Profiling` plugin object: the `svg` flag, the optional
`svg_name` and `combined` paths (class attributes starting as `None`), and
the ordered list `profs` of per-test artifact paths. -/
structure ProfilingState where
  svg : Bool
  svg_name : Option String
  profs : List String
  combined : Option String
deriving DecidableEq, Repr

/-- `Profiling.__init__(self, svg)`: stores the flag and resets `profs`;
`svg_name` and `combined` remain the class-attribute `None`. -/
def Profiling.init (svg : Bool) : ProfilingState :=
  { svg := svg, svg_name := none, profs := [], combined := none }

/-- `pytest_sessionstart`: `try: os.makedirs("prof") except OSError: pass`.
The makedirs outcome is the oracle `mkres`; an `OSError` (here `envError`,
whatever its errno) is swallowed, any other exception propagates. -/
def pytest_sessionstart (mkres : Except PyExc Unit) (st : ProfilingState) :
    Except PyExc ProfilingState :=
  match mkres with
  | .ok _ => .ok st
  | .error (.envError _) => .ok st
  | .error e => .error e

/-- The merge loop of `pytest_sessionfinish` on a non-empty `profs` list:
`combined = pstats.Stats(profs[0])` then `combined.add(prof)` for each
remaining path, in sequence order. -/
def mergeProfs (load : String → Stats) : List String → Stats
  | [] => []
  | p :: rest => rest.foldl (fun acc q => statsAdd acc (load q)) (load p)

/-- Result of `pytest_sessionfinish`: the updated plugin state, the stats
file written (`combined.dump_stats(self.combined)`), and the SVG rendered by
the `gprof2dot | dot -Tsvg` pipeline, when any. -/
structure FinishResult where
  state : ProfilingState
  dumped : Option (String × Stats)
  rendered : Option String
deriving DecidableEq, Repr

/-- `pytest_sessionfinish`: when `self.profs` is truthy (non-empty), merge
all artifacts in order, dump to `prof/combined.prof` recording that path in
`self.combined`, and when `self.svg` is set render `prof/combined.svg`
recording that path in `self.svg_name`. -/
def pytest_sessionfinish (load : String → Stats) (st : ProfilingState) :
    FinishResult :=
  match st.profs with
  | [] => ⟨st, none, none⟩
  | p :: rest =>
    let combinedStats := rest.foldl (fun acc q => statsAdd acc (load q)) (load p)
    let combinedPath := path_join "prof" "combined.prof"
    let st1 := { st with combined := some combinedPath }
    if st.svg then
      let svgPath := path_join "prof" "combined.svg"
      let st2 := { st1 with svg_name := some svgPath }
      ⟨st2, some (combinedPath, combinedStats), some svgPath⟩
    else
      ⟨st1, some (combinedPath, combinedStats), none⟩

/-- POSIX basename as used by `pstats.strip_dirs`: keep the characters
after the last `/`. -/
def basename (s : String) : String :=
  String.mk (s.data.foldl (fun acc c => if c = '/' then [] else acc ++ [c]) [])

/-- Model of `pstats.Stats.strip_dirs`: strip directory prefixes from every
function key. -/
def strip_dirs (st : Stats) : Stats := st.map (fun p => (basename p.1, p.2))

/-- Collapse duplicate keys of a stats table, summing their times (pstats
aggregates entries whose keys collide): one entry per distinct key, in
first-occurrence order, carrying the key's total cumulative time. -/
def aggregate (st : Stats) : Stats :=
  (st.map Prod.fst).dedup.map (fun k => (k, cumtime st k))

/-- Insert an entry into a list sorted by decreasing cumulative time. -/
def insertDesc (p : String × Nat) : Stats → Stats
  | [] => [p]
  | q :: rest => if q.2 ≤ p.2 then p :: q :: rest else q :: insertDesc p rest

/-- Sort a stats table by decreasing cumulative time, modelling
`sort_stats('cumulative')`. -/
def sortDesc : Stats → Stats
  | [] => []
  | p :: rest => insertDesc p (sortDesc rest)

/-- One printed stats line: the cumulative time and the (stripped) key. -/
def statLine (p : String × Nat) : String := toString p.2 ++ " " ++ p.1

/-- Model of `.strip_dirs().sort_stats('cumulative').print_stats(20)` on a
loaded stats table: the top 20 entries by cumulative time, with directory
prefixes stripped. -/
def print_stats_20 (st : Stats) : List String :=
  ((sortDesc (aggregate (strip_dirs st))).take 20).map statLine

/-- `pytest_terminal_summary`: when `self.combined` is recorded, write the
header naming it and the top-20 cumulative stats; when `self.svg_name` is
recorded, write the line naming it.  Returns the list of writes to the
terminal reporter; the plugin state is not modified. -/
def pytest_terminal_summary (load : String → Stats) (st : ProfilingState) :
    List String :=
  (match st.combined with
   | none => []
   | some c => ("Profiling (from " ++ c ++ "):\n") :: print_stats_20 (load c)) ++
  (match st.svg_name with
   | none => []
   | some s => ["SVG profile in " ++ s ++ ".\n"])

/-- `pytest_pyfunc_call` after the profiled test body has run: dump the
profile to `prof/<clean_filename(name)>.prof`; on an `EnvironmentError`
whose errno is not `ENAMETOOLONG` re-raise; on `ENAMETOOLONG` with
`len(name) < LARGE_FILENAME_HASH_LEN` re-raise; otherwise dump to
`prof/<md5(name).hexdigest()[:8]>.prof`; append the written path to
`self.profs`. -/
def pytest_pyfunc_call (md5hex : String → String)
    (dump : String → Except PyExc Unit) (nm : String) (st : ProfilingState) :
    Except PyExc ProfilingState :=
  let prof_filename := path_join "prof" (clean_filename nm ++ ".prof")
  match dump prof_filename with
  | .ok _ => .ok { st with profs := st.profs ++ [prof_filename] }
  | .error (.envError e) =>
    if e ≠ ENAMETOOLONG then .error (.envError e)
    else if nm.length < LARGE_FILENAME_HASH_LEN then .error (.envError e)
    else
      let hash_str := (md5hex nm).take LARGE_FILENAME_HASH_LEN
      let fallback := path_join "prof" (hash_str ++ ".prof")
      match dump fallback with
      | .ok _ => .ok { st with profs := st.profs ++ [fallback] }
      | .error e2 => .error e2
  | .error e => .error e

/-- A concrete md5-hexdigest oracle for witnesses: every identifier maps to
the hexdigest of the empty byte string. -/
def md5c : String → String := fun _ => "d41d8cd98f00b204e9800998ecf8427e"

/-- A concrete test identifier of length 15 (at least 8). -/
def longName : String := "test_0123456789"

/-- Dump oracle failing with `ENAMETOOLONG` on the sanitized path of
`longName` and succeeding elsewhere. -/
def dumpLongC : String → Except PyExc Unit := fun p =>
  if p = path_join "prof" (clean_filename longName ++ ".prof") then
    .error (PyExc.envError ENAMETOOLONG)
  else .ok ()

/-- A second dump oracle, differing from `dumpLongC` away from the paths of
interest, for the cross-run determinism witness. -/
def dumpLongC2 : String → Except PyExc Unit := fun p =>
  if p = path_join "prof" (clean_filename longName ++ ".prof") then
    .error (PyExc.envError ENAMETOOLONG)
  else if p = "elsewhere" then .error (PyExc.otherExc 0)
  else .ok ()

/-- Dump oracle that always fails with `ENAMETOOLONG`. -/
def dumpToolongC : String → Except PyExc Unit :=
  fun _ => .error (PyExc.envError ENAMETOOLONG)

/-- Dump oracle that always fails with `EACCES`. -/
def dumpEaccesC : String → Except PyExc Unit :=
  fun _ => .error (PyExc.envError EACCES)

/-- A concrete stats-loading oracle for witnesses: every path loads as a
single entry recording one time unit against the path itself. -/
def loadC : String → Stats := fun p => [(p, 1)]

/-- A concrete state with two recorded artifact paths and svg disabled. -/
def stTwoProfs : ProfilingState :=
  { svg := false, svg_name := none,
    profs := [path_join "prof" "a.prof", path_join "prof" "b.prof"],
    combined := none }

/-- A concrete state with one recorded artifact path and svg enabled. -/
def stSvgProfs : ProfilingState :=
  { svg := true, svg_name := none, profs := [path_join "prof" "a.prof"],
    combined := none }

/-- A concrete post-finish state with both output paths recorded. -/
def stCombinedSvg : ProfilingState :=
  { svg := true, svg_name := some (path_join "prof" "combined.svg"),
    profs := [path_join "prof" "a.prof"],
    combined := some (path_join "prof" "combined.prof") }

/-- The C10 invariant: whenever `svg_name` is recorded, `combined` is
recorded as well. -/
def SvgInv (st : ProfilingState) : Prop :=
  st.svg_name.isSome → st.combined.isSome

/-! Theorems settling the claims.  Helper lemmas about the state carried by
the lifecycle hooks come first. -/

/-- A successful `pytest_sessionstart` leaves the plugin state unchanged. -/
theorem sessionstart_ok_state (mkres : Except PyExc Unit)
    (st st' : ProfilingState) (hok : pytest_sessionstart mkres st = .ok st') :
    st' = st := by
  cases mkres with
  | ok u => injection hok with h; exact h.symm
  | error e =>
    cases e with
    | envError n => injection hok with h; exact h.symm
    | otherExc t => exact Except.noConfusion hok

/-- A successful `pytest_pyfunc_call` only appends one path to `profs`; the
`svg` flag and the `svg_name` and `combined` attributes are untouched. -/
theorem pyfunc_call_ok_state (md5hex : String → String)
    (dump : String → Except PyExc Unit) (nm : String) (st st' : ProfilingState)
    (hok : pytest_pyfunc_call md5hex dump nm st = .ok st') :
    st'.svg = st.svg ∧ st'.svg_name = st.svg_name ∧ st'.combined = st.combined ∧
      ∃ p, st'.profs = st.profs ++ [p] := by
  simp only [pytest_pyfunc_call] at hok
  split at hok
  · injection hok with h; subst h; exact ⟨rfl, rfl, rfl, _, rfl⟩
  · split at hok
    · exact Except.noConfusion hok
    · split at hok
      · exact Except.noConfusion hok
      · split at hok
        · injection hok with h; subst h; exact ⟨rfl, rfl, rfl, _, rfl⟩
        · exact Except.noConfusion hok
  · exact Except.noConfusion hok

/-- Cumulative time distributes over stats accumulation. -/
theorem cumtime_statsAdd (a b : Stats) (f : String) :
    cumtime (statsAdd a b) f = cumtime a f + cumtime b f := by
  simp [cumtime, statsAdd, List.filter_append]

/-- Cumulative time of the session-finish merge loop: the accumulator's
time plus the sum over the remaining artifacts. -/
theorem cumtime_foldl (load : String → Stats) (f : String) :
    ∀ (rest : List String) (acc : Stats),
      cumtime (rest.foldl (fun a q => statsAdd a (load q)) acc) f =
        cumtime acc f + ((rest.map load).map (fun s => cumtime s f)).sum := by
  intro rest
  induction rest with
  | nil => intro acc; simp
  | cons q rest ih =>
    intro acc
    simp [List.foldl_cons, ih, cumtime_statsAdd, Nat.add_assoc]

/-- C1, counterexample: the claim is false as stated.  The line-feed
character (code point 10) is a control character, yet `clean_filename` keeps
it unchanged instead of replacing it with an underscore: the sanitization
only replaces forbidden characters and code points at or above 127. -/
theorem clean_filename_control_char_kept :
    clean_filename (String.mk [Char.ofNat 10]) = String.mk [Char.ofNat 10] ∧
    Char.ofNat 10 ≠ '_' ∧ (Char.ofNat 10).toNat < 32 := by
  refine ⟨by decide, by decide, by decide⟩

/-- C1, amended: the derived artifact filename replaces every forbidden path
character and every character with code point at least 127 (non-ASCII, and
the ASCII delete character) with an underscore; every other character —
including ASCII control characters below 127 — is left unchanged, each
character being mapped independently. -/
theorem clean_filename_char_map (s : String) :
    (clean_filename s).data =
      s.data.map (fun c => if c ∈ forbidden_chars ∨ 127 ≤ c.toNat then '_' else c) := by
  show s.data.map _ = s.data.map _
  apply List.map_congr_left
  intro c _
  by_cases hf : c ∈ forbidden_chars
  · simp [hf]
  · by_cases hlt : c.toNat < 127
    · simp [hf, hlt, Nat.not_le.mpr hlt]
    · simp [hf, hlt, Nat.le_of_not_lt hlt]

/-- C3, counterexample: the claim is false as stated.  A permission-denied
failure (`OSError` with errno `EACCES`) from creating the `prof` directory
does not propagate: the bare `except OSError: pass` handler swallows it and
session start succeeds. -/
theorem sessionstart_swallows_eacces :
    pytest_sessionstart (.error (PyExc.envError EACCES)) (Profiling.init false) =
      .ok (Profiling.init false) ∧
    (Except.ok (Profiling.init false) : Except PyExc ProfilingState) ≠
      .error (PyExc.envError EACCES) := by
  exact ⟨rfl, by intro h; exact Except.noConfusion h⟩

/-- C3, amended: session start tolerates every `OSError` raised by directory
creation — a pre-existing directory (`EEXIST`) and any other errno such as
`EACCES` alike — leaving the plugin state unchanged; only an exception that
is not an `OSError` propagates to the host runner. -/
theorem sessionstart_oserror_tolerated (mkres : Except PyExc Unit)
    (st : ProfilingState) :
    (∀ n, mkres = .error (PyExc.envError n) → pytest_sessionstart mkres st = .ok st) ∧
    (mkres = .ok () → pytest_sessionstart mkres st = .ok st) ∧
    (∀ t, mkres = .error (PyExc.otherExc t) →
      pytest_sessionstart mkres st = .error (PyExc.otherExc t)) := by
  refine ⟨?_, ?_, ?_⟩
  · intro n h; subst h; rfl
  · intro h; subst h; rfl
  · intro t h; subst h; rfl

/-- Witness for the amended C3 at a concrete input: a directory-exists
error is tolerated. -/
theorem sessionstart_oserror_tolerated_witness :
    pytest_sessionstart (.error (PyExc.envError EEXIST)) (Profiling.init true) =
      .ok (Profiling.init true) :=
  (sessionstart_oserror_tolerated (.error (PyExc.envError EEXIST))
    (Profiling.init true)).1 EEXIST rfl

/-- C2: in `pytest_pyfunc_call`, when writing the per-test stats file fails
with `ENAMETOOLONG` and the identifier has length at least 8, the profile is
instead written to `prof/` followed by the first 8 hex characters of the MD5
digest of the identifier and `.prof`, and that path is appended to `profs`;
when the identifier is shorter than 8 the `ENAMETOOLONG` error propagates;
and any write failure other than `ENAMETOOLONG` propagates unchanged. -/
theorem pyfunc_call_error_handling (md5hex : String → String)
    (dump : String → Except PyExc Unit) (nm : String) (st : ProfilingState) :
    (dump (path_join "prof" (clean_filename nm ++ ".prof")) =
        .error (PyExc.envError ENAMETOOLONG) →
      LARGE_FILENAME_HASH_LEN ≤ nm.length →
      dump (path_join "prof" ((md5hex nm).take LARGE_FILENAME_HASH_LEN ++ ".prof")) =
        .ok () →
      pytest_pyfunc_call md5hex dump nm st =
        .ok { st with profs := st.profs ++
          [path_join "prof" ((md5hex nm).take LARGE_FILENAME_HASH_LEN ++ ".prof")] }) ∧
    (dump (path_join "prof" (clean_filename nm ++ ".prof")) =
        .error (PyExc.envError ENAMETOOLONG) →
      nm.length < LARGE_FILENAME_HASH_LEN →
      pytest_pyfunc_call md5hex dump nm st = .error (PyExc.envError ENAMETOOLONG)) ∧
    (∀ e, dump (path_join "prof" (clean_filename nm ++ ".prof")) = .error e →
      e ≠ PyExc.envError ENAMETOOLONG →
      pytest_pyfunc_call md5hex dump nm st = .error e) := by
  refine ⟨?_, ?_, ?_⟩
  · intro h1 h2 h3
    simp [pytest_pyfunc_call, h1, h3, Nat.not_lt.mpr h2]
  · intro h1 h2
    simp [pytest_pyfunc_call, h1, h2]
  · intro e h1 hne
    cases e with
    | envError n =>
      have hn : ¬n = ENAMETOOLONG := fun hh => hne (by rw [hh])
      simp [pytest_pyfunc_call, h1, hn]
    | otherExc t =>
      simp [pytest_pyfunc_call, h1]

/-- Witness for C2 at concrete inputs: the hash fallback fires for a 15
character identifier whose first write hits `ENAMETOOLONG`; the error
propagates for the 2 character identifier `ab`; an `EACCES` write failure
propagates. -/
theorem pyfunc_call_error_handling_witness :
    pytest_pyfunc_call md5c dumpLongC longName (Profiling.init false) =
      .ok { Profiling.init false with
            profs := [path_join "prof"
              ((md5c longName).take LARGE_FILENAME_HASH_LEN ++ ".prof")] } ∧
    pytest_pyfunc_call md5c dumpToolongC "ab" (Profiling.init false) =
      .error (PyExc.envError ENAMETOOLONG) ∧
    pytest_pyfunc_call md5c dumpEaccesC longName (Profiling.init false) =
      .error (PyExc.envError EACCES) := by
  refine ⟨?_, ?_, ?_⟩
  · have h := (pyfunc_call_error_handling md5c dumpLongC longName
      (Profiling.init false)).1 rfl (by decide) rfl
    simpa [Profiling.init] using h
  · exact (pyfunc_call_error_handling md5c dumpToolongC "ab"
      (Profiling.init false)).2.1 rfl (by decide)
  · exact (pyfunc_call_error_handling md5c dumpEaccesC longName
      (Profiling.init false)).2.2 (PyExc.envError EACCES) rfl (by decide)

/-- C8: the hash-based fallback filename is deterministic across runs — for
an identifier of length at least 8, two invocations in arbitrary plugin
states, against arbitrary filesystems that both report `ENAMETOOLONG` for
the sanitized path and accept the fallback write, record the same fallback
path, namely `prof/` followed by the first 8 hex characters of the MD5
digest of the identifier and `.prof`. -/
theorem fallback_filename_deterministic (md5hex : String → String) (nm : String)
    (hlen : LARGE_FILENAME_HASH_LEN ≤ nm.length)
    (st₁ st₂ : ProfilingState) (dump₁ dump₂ : String → Except PyExc Unit)
    (h₁ : dump₁ (path_join "prof" (clean_filename nm ++ ".prof")) =
      .error (PyExc.envError ENAMETOOLONG))
    (h₂ : dump₂ (path_join "prof" (clean_filename nm ++ ".prof")) =
      .error (PyExc.envError ENAMETOOLONG))
    (h₁f : dump₁ (path_join "prof"
      ((md5hex nm).take LARGE_FILENAME_HASH_LEN ++ ".prof")) = .ok ())
    (h₂f : dump₂ (path_join "prof"
      ((md5hex nm).take LARGE_FILENAME_HASH_LEN ++ ".prof")) = .ok ()) :
    ∃ p, pytest_pyfunc_call md5hex dump₁ nm st₁ =
          .ok { st₁ with profs := st₁.profs ++ [p] } ∧
        pytest_pyfunc_call md5hex dump₂ nm st₂ =
          .ok { st₂ with profs := st₂.profs ++ [p] } ∧
        p = path_join "prof" ((md5hex nm).take LARGE_FILENAME_HASH_LEN ++ ".prof") := by
  refine ⟨path_join "prof" ((md5hex nm).take LARGE_FILENAME_HASH_LEN ++ ".prof"),
    ?_, ?_, rfl⟩
  · simp [pytest_pyfunc_call, h₁, h₁f, Nat.not_lt.mpr hlen]
  · simp [pytest_pyfunc_call, h₂, h₂f, Nat.not_lt.mpr hlen]

/-- Witness for C8 at concrete inputs: two runs with different states and
different filesystems record the same fallback path for `longName`. -/
theorem fallback_filename_deterministic_witness :
    ∃ p, pytest_pyfunc_call md5c dumpLongC longName (Profiling.init false) =
          .ok { Profiling.init false with profs := [p] } ∧
        pytest_pyfunc_call md5c dumpLongC2 longName (Profiling.init true) =
          .ok { Profiling.init true with profs := [p] } ∧
        p = path_join "prof" ((md5c longName).take LARGE_FILENAME_HASH_LEN ++ ".prof") := by
  have h := fallback_filename_deterministic md5c longName (by decide)
    (Profiling.init false) (Profiling.init true) dumpLongC dumpLongC2
    rfl rfl rfl rfl
  simpa [Profiling.init] using h

/-- C4: at session finish with a non-empty artifact sequence, the combined
accumulator starts from the first recorded path and each remaining path is
merged into it in sequence order; the result is written to
`prof/combined.prof` and that path is recorded in `combined`. -/
theorem sessionfinish_merges_in_order (load : String → Stats)
    (st : ProfilingState) (h : st.profs ≠ []) :
    (pytest_sessionfinish load st).dumped =
      some (path_join "prof" "combined.prof",
        (st.profs.tail.map load).foldl statsAdd (load (st.profs.head h))) ∧
    (pytest_sessionfinish load st).state.combined =
      some (path_join "prof" "combined.prof") := by
  obtain ⟨svg, svgn, profs, comb⟩ := st
  cases profs with
  | nil => exact absurd rfl h
  | cons p rest =>
    constructor
    · cases svg <;> simp [pytest_sessionfinish, List.foldl_map]
    · cases svg <;> simp [pytest_sessionfinish]

/-- Witness for C4 at a concrete input: two artifacts merge in order into
`prof/combined.prof`. -/
theorem sessionfinish_merges_in_order_witness :
    (pytest_sessionfinish loadC stTwoProfs).dumped =
      some (path_join "prof" "combined.prof",
        [(path_join "prof" "a.prof", 1), (path_join "prof" "b.prof", 1)]) ∧
    (pytest_sessionfinish loadC stTwoProfs).state.combined =
      some (path_join "prof" "combined.prof") := by
  have h := sessionfinish_merges_in_order loadC stTwoProfs (by decide)
  exact ⟨by rw [h.1]; rfl, h.2⟩

/-- C5: with an empty artifact sequence, session finish changes nothing —
no combined artifact is dumped, nothing is rendered, the state (hence the
`combined` and `svg_name` attributes) is unchanged — and when both
attributes are unset the terminal summary writes no output. -/
theorem sessionfinish_empty_noop (load : String → Stats) (st : ProfilingState)
    (h : st.profs = []) :
    (pytest_sessionfinish load st).state = st ∧
    (pytest_sessionfinish load st).dumped = none ∧
    (pytest_sessionfinish load st).rendered = none ∧
    (st.combined = none → st.svg_name = none →
      pytest_terminal_summary load st = []) := by
  have hfin : pytest_sessionfinish load st = ⟨st, none, none⟩ := by
    unfold pytest_sessionfinish
    rw [h]
  refine ⟨by rw [hfin], by rw [hfin], by rw [hfin], ?_⟩
  intro hc hs
  unfold pytest_terminal_summary
  rw [hc, hs]
  rfl

/-- Witness for C5 at a concrete input: the freshly initialized plugin has
no artifacts; session finish is a no-op and the summary is empty. -/
theorem sessionfinish_empty_noop_witness :
    (pytest_sessionfinish loadC (Profiling.init false)).state =
      Profiling.init false ∧
    pytest_terminal_summary loadC (Profiling.init false) = [] := by
  have h := sessionfinish_empty_noop loadC (Profiling.init false) rfl
  exact ⟨h.1, h.2.2.2 rfl rfl⟩

/-- C6: starting from a state where no SVG path is recorded (as established
at initialization and preserved by session start and by every successful
per-test invocation), session finish records `prof/combined.svg` in
`svg_name`, and renders it, exactly when the `svg` flag is set and the
artifact sequence is non-empty; with svg disabled no SVG path is ever
recorded. -/
theorem svg_recorded_iff (load : String → Stats) (st : ProfilingState)
    (h : st.svg_name = none) :
    ((pytest_sessionfinish load st).state.svg_name =
        some (path_join "prof" "combined.svg") ↔
      st.svg = true ∧ st.profs ≠ []) ∧
    ((pytest_sessionfinish load st).rendered =
        some (path_join "prof" "combined.svg") ↔
      st.svg = true ∧ st.profs ≠ []) ∧
    (st.svg = false → (pytest_sessionfinish load st).state.svg_name = none) ∧
    (∀ b, (Profiling.init b).svg = b ∧ (Profiling.init b).svg_name = none) ∧
    (∀ mkres st', pytest_sessionstart mkres st = .ok st' →
      st'.svg_name = none ∧ st'.svg = st.svg) ∧
    (∀ md5hex dump nm st', pytest_pyfunc_call md5hex dump nm st = .ok st' →
      st'.svg_name = none ∧ st'.svg = st.svg) := by
  refine ⟨?_, ?_, ?_, fun b => ⟨rfl, rfl⟩, ?_, ?_⟩
  · obtain ⟨svg, svgn, profs, comb⟩ := st
    dsimp only at h
    subst h
    cases svg <;> cases profs <;> simp [pytest_sessionfinish]
  · obtain ⟨svg, svgn, profs, comb⟩ := st
    cases svg <;> cases profs <;> simp [pytest_sessionfinish]
  · intro hsvg
    obtain ⟨svg, svgn, profs, comb⟩ := st
    dsimp only at h hsvg
    subst h
    subst hsvg
    cases profs <;> simp [pytest_sessionfinish]
  · intro mkres st' hok
    rw [sessionstart_ok_state mkres st st' hok]
    exact ⟨h, rfl⟩
  · intro md5hex dump nm st' hok
    obtain ⟨hs, hn, _, _⟩ := pyfunc_call_ok_state md5hex dump nm st st' hok
    exact ⟨hn.trans h, hs⟩

/-- Witness for C6 at concrete inputs: with svg enabled and one artifact the
SVG path is recorded; with svg disabled it is not. -/
theorem svg_recorded_iff_witness :
    (pytest_sessionfinish loadC stSvgProfs).state.svg_name =
      some (path_join "prof" "combined.svg") ∧
    (pytest_sessionfinish loadC (Profiling.init false)).state.svg_name =
      none := by
  constructor
  · exact ((svg_recorded_iff loadC stSvgProfs rfl).1).mpr ⟨rfl, by decide⟩
  · exact (svg_recorded_iff loadC (Profiling.init false) rfl).2.2.1 rfl

/-- C7: the terminal summary writes, when a combined path is recorded, the
header line naming it followed by the top-20-by-cumulative-time stats lines
with directory prefixes stripped (and at most 20 of them); when an SVG path
is recorded it writes the line naming it; and it writes nothing when
neither path is recorded. -/
theorem terminal_summary_output (load : String → Stats) (st : ProfilingState) :
    (∀ c, st.combined = some c →
      pytest_terminal_summary load st =
        ("Profiling (from " ++ c ++ "):\n") :: print_stats_20 (load c) ++
          (match st.svg_name with
           | none => []
           | some s => ["SVG profile in " ++ s ++ ".\n"])) ∧
    (∀ c, st.combined = some c → (print_stats_20 (load c)).length ≤ 20) ∧
    (∀ s, st.svg_name = some s →
      ("SVG profile in " ++ s ++ ".\n") ∈ pytest_terminal_summary load st) ∧
    (st.combined = none → st.svg_name = none →
      pytest_terminal_summary load st = []) := by
  refine ⟨?_, ?_, ?_, ?_⟩
  · intro c hc
    unfold pytest_terminal_summary
    rw [hc]
  · intro c hc
    simp only [print_stats_20, List.length_map, List.length_take]
    exact Nat.min_le_left _ _
  · intro s hs
    unfold pytest_terminal_summary
    rw [hs]
    cases hc : st.combined <;> simp
  · intro hc hs
    unfold pytest_terminal_summary
    rw [hc, hs]
    rfl

/-- Witness for C7 at a concrete input: a state with both paths recorded
produces the header, one stats line and the SVG line. -/
theorem terminal_summary_output_witness :
    pytest_terminal_summary loadC stCombinedSvg =
      ["Profiling (from prof/combined.prof):\n",
       "1 combined.prof",
       "SVG profile in prof/combined.svg.\n"] := by
  have h := (terminal_summary_output loadC stCombinedSvg).1
    (path_join "prof" "combined.prof") rfl
  rw [h]
  rfl

/-- C9: merging N artifacts (N at least 1) at session finish is
order-independent — for every function, its cumulative time in the merged
result equals the sum of its cumulative times across all inputs, and any
permutation of the artifact sequence merges to the same cumulative time. -/
theorem merge_cumtime_order_independent (load : String → Stats)
    (profs : List String) (h : profs ≠ []) (f : String) :
    cumtime (mergeProfs load profs) f =
      ((profs.map load).map (fun s => cumtime s f)).sum ∧
    ∀ profs', profs.Perm profs' →
      cumtime (mergeProfs load profs') f = cumtime (mergeProfs load profs) f := by
  have key : ∀ (l : List String), l ≠ [] →
      cumtime (mergeProfs load l) f =
        ((l.map load).map (fun s => cumtime s f)).sum := by
    intro l hl
    cases l with
    | nil => exact absurd rfl hl
    | cons p rest => simp [mergeProfs, cumtime_foldl]
  refine ⟨key profs h, ?_⟩
  intro profs' hperm
  have h' : profs' ≠ [] := by
    intro hnil
    subst hnil
    exact h (List.length_eq_zero.mp (by simpa using hperm.length_eq))
  rw [key profs' h', key profs h]
  exact (List.Perm.sum_eq ((hperm.map load).map (fun s => cumtime s f))).symm

/-- Witness for C9 at concrete inputs: three artifacts, two orders, equal
cumulative time for the key of interest. -/
theorem merge_cumtime_order_independent_witness :
    cumtime (mergeProfs loadC ["a", "b", "a"]) "a" =
      (((["a", "b", "a"].map loadC)).map (fun s => cumtime s "a")).sum ∧
    cumtime (mergeProfs loadC ["b", "a", "a"]) "a" =
      cumtime (mergeProfs loadC ["a", "b", "a"]) "a" := by
  have h := merge_cumtime_order_independent loadC ["a", "b", "a"] (by decide) "a"
  exact ⟨h.1, h.2 ["b", "a", "a"] (by decide)⟩

/-- C10: the invariant that a recorded `svg_name` implies a recorded
`combined` holds after initialization and is preserved by session start, by
every successful per-test invocation, and by session finish (the terminal
summary does not modify the state at all, by its type). -/
theorem svg_implies_combined_invariant :
    (∀ b, SvgInv (Profiling.init b)) ∧
    (∀ mkres st st', SvgInv st → pytest_sessionstart mkres st = .ok st' →
      SvgInv st') ∧
    (∀ md5hex dump nm st st', SvgInv st →
      pytest_pyfunc_call md5hex dump nm st = .ok st' → SvgInv st') ∧
    (∀ load st, SvgInv st → SvgInv (pytest_sessionfinish load st).state) := by
  refine ⟨?_, ?_, ?_, ?_⟩
  · intro b hs
    exact absurd hs (by simp [Profiling.init])
  · intro mkres st st' hinv hok
    rw [sessionstart_ok_state mkres st st' hok]
    exact hinv
  · intro md5hex dump nm st st' hinv hok
    obtain ⟨_, hn, hc, _⟩ := pyfunc_call_ok_state md5hex dump nm st st' hok
    intro hs
    rw [hc]
    exact hinv (hn ▸ hs)
  · intro load st hinv
    obtain ⟨svg, svgn, profs, comb⟩ := st
    cases svg <;> cases profs <;>
      simp [pytest_sessionfinish, SvgInv] <;>
      exact fun hs => hinv hs

/-- Witness for C10 at a concrete input: the invariant holds on the
session-finish result of a state that satisfies it. -/
theorem svg_implies_combined_invariant_witness :
    SvgInv (pytest_sessionfinish loadC stCombinedSvg).state :=
  svg_implies_combined_invariant.2.2.2 loadC stCombinedSvg (fun _ => rfl)

end PytestProfiling
